import Mathlib

/-!
Verification of the FFI render-library binding (`src/zig.ts`) of the opentui
rendering core.

The file under `src/` is the TypeScript call-surface binding `zig.ts`: it wraps
the native symbols of the opentui engine.  We embed each wrapper method as a
pure Lean function from its TypeScript-level arguments to the record of
arguments it forwards to the native symbol, modelling the native library as an
oracle (`NativeSymbols`) wherever the wrapper inspects a native return value.
Pointers are modelled as natural numbers with `0` standing for the null
pointer, matching the JavaScript falsiness checks (`if (!ptr) throw`).  The
native engine itself is not part of `src/`; where a claim is decided by native
behaviour we model that behaviour from the specification, in definitions whose
doc comments say so explicitly.
-/

namespace OpenTUI

/-- A native pointer.  `0` models the null pointer: the binding checks
pointers with JavaScript falsiness (`if (!ptr)`), which treats both `null`
and the zero address as absent. -/
abbrev Ptr := Nat

/-- The host-language RGBA wrapper (`RGBA` from `./types`, not under `src/`):
the binding only ever reads its `buffer` field, a pointer to the color's
backing float array, so we model exactly that field. -/
structure RGBA where
  buffer : Ptr
deriving DecidableEq

/-! ## drawFrameBuffer (C1) -/

/-- The argument record forwarded to the native `drawFrameBuffer` symbol
(signature `ptr, i32, i32, ptr, u32, u32, u32, u32`). -/
structure DrawFrameBufferCall where
  targetBufferPtr : Ptr
  destX : Int
  destY : Int
  bufferPtr : Ptr
  srcX : Nat
  srcY : Nat
  srcWidth : Nat
  srcHeight : Nat
deriving DecidableEq

/-- `FFIRenderLib.drawFrameBuffer` from `src/zig.ts` lines 562-577: each of the
four optional source-rectangle arguments defaults to `0` via `?? 0`, and all
arguments are forwarded to the native `drawFrameBuffer`. -/
def FFIRenderLib.drawFrameBuffer (targetBufferPtr : Ptr) (destX destY : Int)
    (bufferPtr : Ptr) (sourceX sourceY sourceWidth sourceHeight : Option Nat) :
    DrawFrameBufferCall :=
  let srcX := sourceX.getD 0
  let srcY := sourceY.getD 0
  let srcWidth := sourceWidth.getD 0
  let srcHeight := sourceHeight.getD 0
  { targetBufferPtr := targetBufferPtr, destX := destX, destY := destY,
    bufferPtr := bufferPtr, srcX := srcX, srcY := srcY,
    srcWidth := srcWidth, srcHeight := srcHeight }

/-! ## The spec-modelled CellBuffer (native side, used by C1, C7) -/

/-- An RGBA color of the spec-modelled native cell buffer: four channels in
`[0,1]`, modelled exactly with rationals. -/
structure ColorRGBA where
  r : ℚ
  g : ℚ
  b : ℚ
  a : ℚ
deriving DecidableEq

/-- Modelled from the spec: a native CellBuffer (the engine behind the binding
is not under `src/`) — width, height, a `respectAlpha` flag, and four parallel
arrays indexed by `y*width+x`: codepoints, fg colors, bg colors, attributes. -/
structure CellBuffer where
  width : Nat
  height : Nat
  respectAlpha : Bool
  char : Array Nat
  fg : Array ColorRGBA
  bg : Array ColorRGBA
  attributes : Array Nat
deriving DecidableEq

/-- Modelled from the spec: the native `drawFrameBuffer` (absent from `src/`)
"copies the rectangular region of `source` (full buffer if srcW/srcH omitted
or zero)": a source width of `0` selects the source buffer's full width. -/
def selectedSrcWidth (source : CellBuffer) (srcWidth : Nat) : Nat :=
  if srcWidth = 0 then source.width else srcWidth

/-- Modelled from the spec: as `selectedSrcWidth`, for the source height — a
source height of `0` selects the source buffer's full height. -/
def selectedSrcHeight (source : CellBuffer) (srcHeight : Nat) : Nat :=
  if srcHeight = 0 then source.height else srcHeight

/-! ## bufferDrawSuperSampleBuffer (C2) -/

/-- The pixel-format tag of `bufferDrawSuperSampleBuffer`: the TypeScript
union `"bgra8unorm" | "rgba8unorm"` — these are the only two accepted tags. -/
inductive SuperSampleFormat where
  | bgra8unorm
  | rgba8unorm
deriving DecidableEq

/-- The argument record forwarded to the native `bufferDrawSuperSampleBuffer`
symbol (signature `ptr, u32, u32, ptr, usize, u8, u32`). -/
structure DrawSuperSampleBufferCall where
  buffer : Ptr
  x : Nat
  y : Nat
  pixelDataPtr : Ptr
  pixelDataLength : Nat
  formatId : Nat
  alignedBytesPerRow : Nat
deriving DecidableEq

/-- `FFIRenderLib.bufferDrawSuperSampleBuffer` from `src/zig.ts`
lines 466-485: `formatId = format === "bgra8unorm" ? 0 : 1`, and all other
arguments are forwarded unchanged. -/
def FFIRenderLib.bufferDrawSuperSampleBuffer (buffer : Ptr) (x y : Nat)
    (pixelDataPtr : Ptr) (pixelDataLength : Nat) (format : SuperSampleFormat)
    (alignedBytesPerRow : Nat) : DrawSuperSampleBufferCall :=
  let formatId := if format = .bgra8unorm then 0 else 1
  { buffer := buffer, x := x, y := y, pixelDataPtr := pixelDataPtr,
    pixelDataLength := pixelDataLength, formatId := formatId,
    alignedBytesPerRow := alignedBytesPerRow }

/-! ## bufferDrawText (C6) -/

/-- The argument record forwarded to the native `bufferDrawText` symbol
(signature `ptr, ptr, u32, u32, u32, ptr, ptr, u8`); `bg = none` models the
null pointer passed for an omitted background color. -/
structure BufferDrawTextCall where
  buffer : Ptr
  textBytes : List UInt8
  textLength : Nat
  x : Nat
  y : Nat
  fg : Ptr
  bg : Option Ptr
  attributes : Nat
deriving DecidableEq

/-- `FFIRenderLib.bufferDrawText` from `src/zig.ts` lines 428-443: the text is
encoded with a UTF-8 `TextEncoder`, `textLength` is the encoding's byte
length, an omitted `bgColor` becomes the null pointer, and an omitted
`attributes` becomes `0`. -/
def FFIRenderLib.bufferDrawText (buffer : Ptr) (text : String) (x y : Nat)
    (color : RGBA) (bgColor : Option RGBA) (attributes : Option Nat) :
    BufferDrawTextCall :=
  let textBytes := text.toUTF8.toList
  let textLength := textBytes.length
  let bg := bgColor.map RGBA.buffer
  let fg := color.buffer
  { buffer := buffer, textBytes := textBytes, textLength := textLength,
    x := x, y := y, fg := fg, bg := bg, attributes := attributes.getD 0 }

/-! ## bufferSetCellWithAlphaBlending (C9) -/

/-- JavaScript `String.prototype.codePointAt(0)`: the first Unicode code
point of the string, or `none` for the empty string.  Lean strings are
sequences of code points, so this is the head of `s.data`. -/
def codePointAt0 (s : String) : Option Nat :=
  s.data.head?.map Char.toNat

/-- The argument record forwarded to the native `bufferSetCellWithAlphaBlending`
symbol (signature `ptr, u32, u32, u32, ptr, ptr, u8`).  The third `u32` is the
codepoint; the binding's local variable for it is named `charPtr`. -/
structure SetCellCall where
  buffer : Ptr
  x : Nat
  y : Nat
  charPtr : Nat
  fg : Ptr
  bg : Ptr
  attributes : Nat
deriving DecidableEq

/-- `FFIRenderLib.bufferSetCellWithAlphaBlending` from `src/zig.ts`
lines 445-459: the codepoint is `char.codePointAt(0) ?? " ".codePointAt(0)!`
(`" ".codePointAt(0)` is the constant 32), and `attributes ?? 0`. -/
def FFIRenderLib.bufferSetCellWithAlphaBlending (buffer : Ptr) (x y : Nat)
    (char : String) (color : RGBA) (bgColor : RGBA) (attributes : Option Nat) :
    SetCellCall :=
  let charPtr := (codePointAt0 char).getD 32
  let bg := bgColor.buffer
  let fg := color.buffer
  { buffer := buffer, x := x, y := y, charPtr := charPtr, fg := fg, bg := bg,
    attributes := attributes.getD 0 }

/-! ## The native-symbol oracle and buffer-view construction (C3, C4, C5) -/

/-- The slice of `this.opentui.symbols` the verified wrappers consult: each
field is the native function's observable input-output behaviour, with `0`
modelling a null return.  Buffer/renderer creation and pointer accessors are
the only symbols whose results the binding inspects. -/
structure NativeSymbols where
  createRenderer : Nat → Nat → Ptr
  createOptimizedBuffer : Nat → Nat → Bool → Ptr
  getNextBuffer : Ptr → Ptr
  getCurrentBuffer : Ptr → Ptr
  getBufferWidth : Ptr → Nat
  getBufferHeight : Ptr → Nat
  bufferGetCharPtr : Ptr → Ptr
  bufferGetFgPtr : Ptr → Ptr
  bufferGetBgPtr : Ptr → Ptr
  bufferGetAttributesPtr : Ptr → Ptr

/-- A `Uint32Array` view over `toArrayBuffer(ptr, 0, byteLength)`: its element
count is `byteLength / 4`. -/
structure Uint32ArrayView where
  ptr : Ptr
  byteLength : Nat
deriving DecidableEq

/-- Element count of a `Uint32Array` (4 bytes per element). -/
def Uint32ArrayView.length (v : Uint32ArrayView) : Nat := v.byteLength / 4

/-- A `Float32Array` view over `toArrayBuffer(ptr, 0, byteLength)`: its
element count is `byteLength / 4`. -/
structure Float32ArrayView where
  ptr : Ptr
  byteLength : Nat
deriving DecidableEq

/-- Element count of a `Float32Array` (4 bytes per element). -/
def Float32ArrayView.length (v : Float32ArrayView) : Nat := v.byteLength / 4

/-- A `Uint8Array` view over `toArrayBuffer(ptr, 0, byteLength)`: its element
count equals `byteLength`. -/
structure Uint8ArrayView where
  ptr : Ptr
  byteLength : Nat
deriving DecidableEq

/-- Element count of a `Uint8Array` (1 byte per element). -/
def Uint8ArrayView.length (v : Uint8ArrayView) : Nat := v.byteLength

/-- The record of four typed-array views returned by `getBuffer` and
`bufferResize`. -/
structure BufferViews where
  char : Uint32ArrayView
  fg : Float32ArrayView
  bg : Float32ArrayView
  attributes : Uint8ArrayView
deriving DecidableEq

/-- The `OptimizedBuffer` wrapper constructed by `getNextBuffer`,
`getCurrentBuffer` and `createOptimizedBuffer`: the native pointer, the four
views, the width/height used to size them, and the options object
(`respectAlpha := none` models the empty options `{}`). -/
structure OptimizedBuffer where
  bufferPtr : Ptr
  buffers : BufferViews
  width : Nat
  height : Nat
  respectAlpha : Option Bool
deriving DecidableEq

/-- `FFIRenderLib.getBuffer` from `src/zig.ts` lines 348-374: fetches the four
native array pointers, throws if any is null, and otherwise builds the views
`char : size*4` bytes, `fg`/`bg : size*4*4` bytes, `attributes : size` bytes. -/
def FFIRenderLib.getBuffer (lib : NativeSymbols) (bufferPtr : Ptr)
    (size : Nat) : Except String BufferViews :=
  let charPtr := lib.bufferGetCharPtr bufferPtr
  let fgPtr := lib.bufferGetFgPtr bufferPtr
  let bgPtr := lib.bufferGetBgPtr bufferPtr
  let attributesPtr := lib.bufferGetAttributesPtr bufferPtr
  if charPtr = 0 ∨ fgPtr = 0 ∨ bgPtr = 0 ∨ attributesPtr = 0 then
    .error "Failed to get buffer pointers"
  else
    .ok { char := ⟨charPtr, size * 4⟩, fg := ⟨fgPtr, size * 4 * 4⟩,
          bg := ⟨bgPtr, size * 4 * 4⟩, attributes := ⟨attributesPtr, size⟩ }

/-- `FFIRenderLib.getNextBuffer` from `src/zig.ts` lines 320-332: throws on a
null native buffer pointer, reads the native width and height, and wraps the
views sized by `width * height`. -/
def FFIRenderLib.getNextBuffer (lib : NativeSymbols) (renderer : Ptr) :
    Except String OptimizedBuffer :=
  let bufferPtr := lib.getNextBuffer renderer
  if bufferPtr = 0 then
    .error "Failed to get next buffer"
  else
    let width := lib.getBufferWidth bufferPtr
    let height := lib.getBufferHeight bufferPtr
    let size := width * height
    (FFIRenderLib.getBuffer lib bufferPtr size).map fun buffers =>
      { bufferPtr := bufferPtr, buffers := buffers, width := width,
        height := height, respectAlpha := none }

/-- `FFIRenderLib.getCurrentBuffer` from `src/zig.ts` lines 334-346: as
`getNextBuffer`, from the native `getCurrentBuffer` symbol. -/
def FFIRenderLib.getCurrentBuffer (lib : NativeSymbols) (renderer : Ptr) :
    Except String OptimizedBuffer :=
  let bufferPtr := lib.getCurrentBuffer renderer
  if bufferPtr = 0 then
    .error "Failed to get current buffer"
  else
    let width := lib.getBufferWidth bufferPtr
    let height := lib.getBufferHeight bufferPtr
    let size := width * height
    (FFIRenderLib.getBuffer lib bufferPtr size).map fun buffers =>
      { bufferPtr := bufferPtr, buffers := buffers, width := width,
        height := height, respectAlpha := none }

/-- `FFIRenderLib.createOptimizedBuffer` from `src/zig.ts` lines 543-556:
throws when the native `createOptimizedBuffer` returns null, otherwise wraps
the views sized by the requested `width * height`; `respectAlpha` defaults to
`false`. -/
def FFIRenderLib.createOptimizedBuffer (lib : NativeSymbols)
    (width height : Nat) (respectAlpha : Bool := false) :
    Except String OptimizedBuffer :=
  let bufferPtr := lib.createOptimizedBuffer width height respectAlpha
  if bufferPtr = 0 then
    .error "Failed to create optimized buffer"
  else
    let size := width * height
    (FFIRenderLib.getBuffer lib bufferPtr size).map fun buffers =>
      { bufferPtr := bufferPtr, buffers := buffers, width := width,
        height := height, respectAlpha := some respectAlpha }

/-- `FFIRenderLib.createRenderer` from `src/zig.ts` lines 296-298: forwards
the native pointer unchanged — no null check, so a failed allocation is the
null handle `0`. -/
def FFIRenderLib.createRenderer (lib : NativeSymbols) (width height : Nat) :
    Ptr :=
  lib.createRenderer width height

/-- The observable outcome of `bufferResize`: the argument record forwarded
to the native `bufferResize` symbol (buffer, width, height) and the four
views rebuilt afterwards. -/
structure BufferResizeResult where
  nativeBuffer : Ptr
  nativeWidth : Nat
  nativeHeight : Nat
  views : Except String BufferViews

/-- `FFIRenderLib.bufferResize` from `src/zig.ts` lines 507-520: calls the
native `bufferResize(buffer, width, height)` and then rebuilds all four views
from the same buffer with `size = width * height`. -/
def FFIRenderLib.bufferResize (lib : NativeSymbols) (buffer : Ptr)
    (width height : Nat) : BufferResizeResult :=
  { nativeBuffer := buffer, nativeWidth := width, nativeHeight := height,
    views := FFIRenderLib.getBuffer lib buffer (width * height) }

/-! ## Spec-modelled native CellBuffer drawing primitives (C7) -/

/-- Modelled from the spec: the alpha-over blending rule of the native engine
(absent from `src/`) — `result = src*src.a + dst*(1-src.a)` per channel,
`result.a = src.a + dst.a*(1-src.a)`. -/
def blendOver (src dst : ColorRGBA) : ColorRGBA :=
  { r := src.r * src.a + dst.r * (1 - src.a),
    g := src.g * src.a + dst.g * (1 - src.a),
    b := src.b * src.a + dst.b * (1 - src.a),
    a := src.a + dst.a * (1 - src.a) }

/-- Modelled from the spec: the native `setCellWithAlphaBlending` (absent from
`src/`) — writes one cell at `y*width+x`; blends when `respectAlpha` is set,
overwrites otherwise; out-of-bounds `(x,y)` is a no-op. -/
def CellBuffer.setCellWithAlphaBlending (buf : CellBuffer) (x y : Nat)
    (codepoint : Nat) (fg bg : ColorRGBA) (attributes : Nat) : CellBuffer :=
  if x < buf.width ∧ y < buf.height then
    let i := y * buf.width + x
    let newFg := if buf.respectAlpha then blendOver fg (buf.fg.getD i fg)
                 else fg
    let newBg := if buf.respectAlpha then blendOver bg (buf.bg.getD i bg)
                 else bg
    { buf with char := buf.char.setD i codepoint, fg := buf.fg.setD i newFg,
               bg := buf.bg.setD i newBg,
               attributes := buf.attributes.setD i attributes }
  else buf

/-- Modelled from the spec: a single cell write of the native `drawText`
(absent from `src/`) — writes codepoint, fg and attributes at `(px,py)`; an
omitted bg preserves the existing background; out-of-bounds cells are
silently skipped. -/
def CellBuffer.writeTextCell (buf : CellBuffer) (px py : Nat)
    (codepoint : Nat) (fg : ColorRGBA) (bg : Option ColorRGBA)
    (attributes : Nat) : CellBuffer :=
  if px < buf.width ∧ py < buf.height then
    let i := py * buf.width + px
    let newBg := match bg with
      | some c => buf.bg.setD i c
      | none => buf.bg
    { buf with char := buf.char.setD i codepoint, fg := buf.fg.setD i fg,
               bg := newBg, attributes := buf.attributes.setD i attributes }
  else buf

/-- Modelled from the spec: the native `drawText` (absent from `src/`) —
writes decoded codepoints left-to-right starting at `(x,y)`, one codepoint
per cell; cells beyond buffer bounds are silently skipped. -/
def CellBuffer.drawText (buf : CellBuffer) (text : List Nat) (x y : Nat)
    (fg : ColorRGBA) (bg : Option ColorRGBA) (attributes : Nat) : CellBuffer :=
  match text with
  | [] => buf
  | cp :: rest =>
    CellBuffer.drawText (buf.writeTextCell x y cp fg bg attributes) rest
      (x + 1) y fg bg attributes

/-- Modelled from the spec: a single cell write of the native `fillRect`
(absent from `src/`) — sets the background and resets the codepoint to space;
out-of-bounds cells are skipped. -/
def CellBuffer.fillCell (buf : CellBuffer) (px py : Nat) (color : ColorRGBA) :
    CellBuffer :=
  if px < buf.width ∧ py < buf.height then
    let i := py * buf.width + px
    { buf with char := buf.char.setD i 32, bg := buf.bg.setD i color }
  else buf

/-- Modelled from the spec: the native `fillRect` (absent from `src/`) —
fills the intersection of the rect with the buffer bounds, cell by cell. -/
def CellBuffer.fillRect (buf : CellBuffer) (x y w h : Nat)
    (color : ColorRGBA) : CellBuffer :=
  (List.range h).foldl
    (fun b dy =>
      (List.range w).foldl (fun b2 dx => b2.fillCell (x + dx) (y + dy) color)
        b)
    buf

/-! ## Spec-modelled native HitGrid (C8) -/

/-- Modelled from the spec: the native HitGrid (absent from `src/`) — a
raster of one owner-id per cell position, represented by the id at each
`(x,y)`; `0` is the empty sentinel. -/
def HitGrid := Nat → Nat → Nat

/-- Modelled from the spec: the empty HitGrid — every position holds the
sentinel `0`. -/
def HitGrid.empty : HitGrid := fun _ _ => 0

/-- Modelled from the spec: the native `addToHitGrid` (absent from `src/`) —
registers `id` over the rectangle `[x, x+w) × [y, y+h)` by overwriting the
owner-id raster for its covered cells (last write wins); `x`/`y` are signed
(`i32`). -/
def HitGrid.addToHitGrid (grid : HitGrid) (x y : Int) (w h : Nat)
    (id : Nat) : HitGrid :=
  fun px py =>
    if x ≤ (px : Int) ∧ (px : Int) < x + w ∧ y ≤ (py : Int) ∧
        (py : Int) < y + h then
      id
    else grid px py

/-- Modelled from the spec: the native `checkHit` (absent from `src/`) —
returns the owner id at `(x,y)`, or the empty sentinel `0` if none (the
raster already holds `0` at unowned positions). -/
def HitGrid.checkHit (grid : HitGrid) (x y : Nat) : Nat := grid x y

/-- Modelled from the spec: the native `clearHitGrid` (absent from `src/`) —
resets every cell's owner id to the sentinel `0`. -/
def HitGrid.clearHitGrid (_grid : HitGrid) : HitGrid := fun _ _ => 0

/-! ## Module-level render-lib state (C10) -/

/-- The `FFIRenderLib` instance as far as its construction is observable: the
constructor `new FFIRenderLib(libPath)` keyed by the optional path it was
given (`none` means the discovered default from `findLibrary()`). -/
structure FFIRenderLibInst where
  libPath : Option String
deriving DecidableEq

/-- The module-level mutable state of `src/zig.ts` lines 600-601: the path
set by `setRenderLibPath` and the memoized library instance. -/
structure RenderLibState where
  opentuiLibPath : Option String
  opentuiLib : Option FFIRenderLibInst
deriving DecidableEq

/-- `setRenderLibPath` from `src/zig.ts` lines 603-605: stores the path. -/
def setRenderLibPath (libPath : String) (s : RenderLibState) :
    RenderLibState :=
  { s with opentuiLibPath := some libPath }

/-- `resolveRenderLib` from `src/zig.ts` lines 607-612: constructs
`FFIRenderLib(opentuiLibPath)` on the first call and memoizes it; later
calls return the stored instance. -/
def resolveRenderLib (s : RenderLibState) : FFIRenderLibInst × RenderLibState :=
  match s.opentuiLib with
  | none =>
    let lib : FFIRenderLibInst := { libPath := s.opentuiLibPath }
    (lib, { s with opentuiLib := some lib })
  | some lib => (lib, s)

/-! ## Concrete native-symbol instances, for evaluation -/

/-- Whether an `Except` result is the error case (a thrown exception of the
binding). -/
def isError {ε α : Type} : Except ε α → Bool
  | .error _ => true
  | .ok _ => false

/-- A concrete healthy native library: every pointer non-null, buffers
reported as 3×2. -/
def goodLib : NativeSymbols :=
  { createRenderer := fun _ _ => 1,
    createOptimizedBuffer := fun _ _ _ => 7,
    getNextBuffer := fun _ => 7,
    getCurrentBuffer := fun _ => 8,
    getBufferWidth := fun _ => 3,
    getBufferHeight := fun _ => 2,
    bufferGetCharPtr := fun _ => 10,
    bufferGetFgPtr := fun _ => 11,
    bufferGetBgPtr := fun _ => 12,
    bufferGetAttributesPtr := fun _ => 13 }

/-- A concrete native library whose allocations succeed (non-null buffer
pointers) but whose `bufferGetCharPtr` returns null. -/
def badLib : NativeSymbols :=
  { createRenderer := fun _ _ => 1,
    createOptimizedBuffer := fun _ _ _ => 7,
    getNextBuffer := fun _ => 7,
    getCurrentBuffer := fun _ => 8,
    getBufferWidth := fun _ => 3,
    getBufferHeight := fun _ => 2,
    bufferGetCharPtr := fun _ => 0,
    bufferGetFgPtr := fun _ => 11,
    bufferGetBgPtr := fun _ => 12,
    bufferGetAttributesPtr := fun _ => 13 }

/-- The views `goodLib` yields for a 3×2 buffer (size 6): 24 = 6*4 bytes of
codepoints, 96 = 6*4*4 bytes of fg/bg floats, 6 bytes of attributes. -/
def goodViews : BufferViews :=
  { char := ⟨10, 24⟩, fg := ⟨11, 96⟩, bg := ⟨12, 96⟩, attributes := ⟨13, 6⟩ }

/-- An opaque white color, for concrete evaluation. -/
def white : ColorRGBA := ⟨1, 1, 1, 1⟩

/-- A concrete 2×2 cell buffer, for concrete evaluation. -/
def smallBuf : CellBuffer :=
  { width := 2, height := 2, respectAlpha := true,
    char := #[65, 66, 67, 68],
    fg := #[white, white, white, white],
    bg := #[white, white, white, white],
    attributes := #[0, 1, 2, 3] }

/-! ## Theorems -/

/-- When `getBuffer` succeeds, the four views have element counts `size`,
`4*size`, `4*size` and `size`. -/
lemma getBuffer_ok_lengths {lib : NativeSymbols} {p : Ptr} {size : Nat}
    {v : BufferViews} (hv : FFIRenderLib.getBuffer lib p size = .ok v) :
    v.char.length = size ∧ v.fg.length = 4 * size ∧
    v.bg.length = 4 * size ∧ v.attributes.length = size := by
  unfold FFIRenderLib.getBuffer at hv
  simp only [] at hv
  split at hv
  · exact absurd hv (by simp)
  · rw [Except.ok.injEq] at hv
    subst hv
    refine ⟨?_, ?_, ?_, rfl⟩ <;>
      simp [Uint32ArrayView.length, Float32ArrayView.length,
        Uint8ArrayView.length] <;> omega

/-- Wrapping an `OptimizedBuffer` around a successful `getBuffer` with
`size = W * H` gives views whose lengths match the buffer's recorded
width and height. -/
lemma wrap_ok_lengths {lib : NativeSymbols} {p : Ptr} {W H : Nat}
    {ra : Option Bool} {b : OptimizedBuffer}
    (hb : (FFIRenderLib.getBuffer lib p (W * H)).map
        (fun buffers => OptimizedBuffer.mk p buffers W H ra) = .ok b) :
    b.width = W ∧ b.height = H ∧
    b.buffers.char.length = b.width * b.height ∧
    b.buffers.fg.length = 4 * (b.width * b.height) ∧
    b.buffers.bg.length = 4 * (b.width * b.height) ∧
    b.buffers.attributes.length = b.width * b.height := by
  cases hg : FFIRenderLib.getBuffer lib p (W * H) with
  | error e => rw [hg] at hb; exact absurd hb (by simp [Except.map])
  | ok v =>
    rw [hg] at hb
    simp only [Except.map, Except.ok.injEq] at hb
    subst hb
    have hl := getBuffer_ok_lengths hg
    exact ⟨rfl, rfl, hl.1, hl.2.1, hl.2.2.1, hl.2.2.2⟩

/-- C3 counterexample: at the concrete library `badLib`, the native
`createOptimizedBuffer` returns the non-null pointer `7` and yet the wrapper
raises an error (the char array pointer is null), so "raises an error if and
only if the native createOptimizedBuffer returns a null pointer (otherwise it
returns a wrapped buffer)" is false as stated. -/
theorem createOptimizedBuffer_error_despite_nonnull :
    badLib.createOptimizedBuffer 2 2 false = 7 ∧
    FFIRenderLib.createOptimizedBuffer badLib 2 2 false =
      .error "Failed to get buffer pointers" :=
  ⟨rfl, rfl⟩

/-- C3 (amended): `createOptimizedBuffer` raises an error iff the native
`createOptimizedBuffer` returns a null pointer or any of the buffer's four
native array pointers is null (otherwise it returns a wrapped buffer), while
`createRenderer` returns the native pointer directly, so a failed renderer
allocation is observed as a null handle rather than a raised error. -/
theorem createOptimizedBuffer_error_conditions (lib : NativeSymbols)
    (w h : Nat) (ra : Bool) :
    (isError (FFIRenderLib.createOptimizedBuffer lib w h ra) = true ↔
      (lib.createOptimizedBuffer w h ra = 0 ∨
       lib.bufferGetCharPtr (lib.createOptimizedBuffer w h ra) = 0 ∨
       lib.bufferGetFgPtr (lib.createOptimizedBuffer w h ra) = 0 ∨
       lib.bufferGetBgPtr (lib.createOptimizedBuffer w h ra) = 0 ∨
       lib.bufferGetAttributesPtr (lib.createOptimizedBuffer w h ra) = 0)) ∧
    FFIRenderLib.createRenderer lib w h = lib.createRenderer w h := by
  refine ⟨?_, rfl⟩
  unfold FFIRenderLib.createOptimizedBuffer FFIRenderLib.getBuffer
  simp only []
  split
  · next h0 => exact iff_of_true rfl (Or.inl h0)
  · next h0 =>
    split
    · next hp => exact iff_of_true rfl (Or.inr hp)
    · next hp =>
      exact iff_of_false (by simp [isError, Except.map]) (by tauto)

/-- C4: every buffer returned by `getNextBuffer`, `getCurrentBuffer` or
`createOptimizedBuffer` has views of lengths `w*h`, `4*(w*h)`, `4*(w*h)` and
`w*h`; if any of the four native array pointers is null, the operation raises
an error instead of returning a buffer. -/
theorem buffer_views_lengths :
    (∀ (lib : NativeSymbols) (renderer : Ptr) (b : OptimizedBuffer),
      FFIRenderLib.getNextBuffer lib renderer = .ok b →
        b.buffers.char.length = b.width * b.height ∧
        b.buffers.fg.length = 4 * (b.width * b.height) ∧
        b.buffers.bg.length = 4 * (b.width * b.height) ∧
        b.buffers.attributes.length = b.width * b.height) ∧
    (∀ (lib : NativeSymbols) (renderer : Ptr) (b : OptimizedBuffer),
      FFIRenderLib.getCurrentBuffer lib renderer = .ok b →
        b.buffers.char.length = b.width * b.height ∧
        b.buffers.fg.length = 4 * (b.width * b.height) ∧
        b.buffers.bg.length = 4 * (b.width * b.height) ∧
        b.buffers.attributes.length = b.width * b.height) ∧
    (∀ (lib : NativeSymbols) (w h : Nat) (ra : Bool) (b : OptimizedBuffer),
      FFIRenderLib.createOptimizedBuffer lib w h ra = .ok b →
        b.width = w ∧ b.height = h ∧
        b.buffers.char.length = b.width * b.height ∧
        b.buffers.fg.length = 4 * (b.width * b.height) ∧
        b.buffers.bg.length = 4 * (b.width * b.height) ∧
        b.buffers.attributes.length = b.width * b.height) ∧
    (∀ (lib : NativeSymbols) (renderer : Ptr),
      (lib.bufferGetCharPtr (lib.getNextBuffer renderer) = 0 ∨
       lib.bufferGetFgPtr (lib.getNextBuffer renderer) = 0 ∨
       lib.bufferGetBgPtr (lib.getNextBuffer renderer) = 0 ∨
       lib.bufferGetAttributesPtr (lib.getNextBuffer renderer) = 0) →
      isError (FFIRenderLib.getNextBuffer lib renderer) = true) ∧
    (∀ (lib : NativeSymbols) (renderer : Ptr),
      (lib.bufferGetCharPtr (lib.getCurrentBuffer renderer) = 0 ∨
       lib.bufferGetFgPtr (lib.getCurrentBuffer renderer) = 0 ∨
       lib.bufferGetBgPtr (lib.getCurrentBuffer renderer) = 0 ∨
       lib.bufferGetAttributesPtr (lib.getCurrentBuffer renderer) = 0) →
      isError (FFIRenderLib.getCurrentBuffer lib renderer) = true) ∧
    (∀ (lib : NativeSymbols) (w h : Nat) (ra : Bool),
      (lib.bufferGetCharPtr (lib.createOptimizedBuffer w h ra) = 0 ∨
       lib.bufferGetFgPtr (lib.createOptimizedBuffer w h ra) = 0 ∨
       lib.bufferGetBgPtr (lib.createOptimizedBuffer w h ra) = 0 ∨
       lib.bufferGetAttributesPtr (lib.createOptimizedBuffer w h ra) = 0) →
      isError (FFIRenderLib.createOptimizedBuffer lib w h ra) = true) := by
  refine ⟨?_, ?_, ?_, ?_, ?_, ?_⟩
  · intro lib renderer b hb
    unfold FFIRenderLib.getNextBuffer at hb
    simp only [] at hb
    split at hb
    · exact absurd hb (by simp)
    · exact (wrap_ok_lengths hb).2.2
  · intro lib renderer b hb
    unfold FFIRenderLib.getCurrentBuffer at hb
    simp only [] at hb
    split at hb
    · exact absurd hb (by simp)
    · exact (wrap_ok_lengths hb).2.2
  · intro lib w h ra b hb
    unfold FFIRenderLib.createOptimizedBuffer at hb
    simp only [] at hb
    split at hb
    · exact absurd hb (by simp)
    · exact wrap_ok_lengths hb
  · intro lib renderer hnull
    unfold FFIRenderLib.getNextBuffer
    simp only []
    split
    · rfl
    · unfold FFIRenderLib.getBuffer
      simp only []
      rw [if_pos hnull]
      rfl
  · intro lib renderer hnull
    unfold FFIRenderLib.getCurrentBuffer
    simp only []
    split
    · rfl
    · unfold FFIRenderLib.getBuffer
      simp only []
      rw [if_pos hnull]
      rfl
  · intro lib w h ra hnull
    unfold FFIRenderLib.createOptimizedBuffer
    simp only []
    split
    · rfl
    · unfold FFIRenderLib.getBuffer
      simp only []
      rw [if_pos hnull]
      rfl

/-- Witness for C4 at the concrete libraries `goodLib` (3×2 buffers, all
pointers non-null) and `badLib` (null char pointer): the three operations
succeed with views of the claimed lengths, respectively raise errors. -/
theorem buffer_views_lengths_witness :
    ((⟨7, goodViews, 3, 2, none⟩ : OptimizedBuffer).buffers.char.length
      = 3 * 2) ∧
    ((⟨8, goodViews, 3, 2, none⟩ : OptimizedBuffer).buffers.fg.length
      = 4 * (3 * 2)) ∧
    ((⟨7, goodViews, 3, 2, some false⟩ :
      OptimizedBuffer).buffers.attributes.length = 3 * 2) ∧
    isError (FFIRenderLib.getNextBuffer badLib 1) = true ∧
    isError (FFIRenderLib.getCurrentBuffer badLib 1) = true ∧
    isError (FFIRenderLib.createOptimizedBuffer badLib 3 2 false) = true := by
  obtain ⟨t1, t2, t3, t4, t5, t6⟩ := buffer_views_lengths
  exact ⟨(t1 goodLib 1 ⟨7, goodViews, 3, 2, none⟩ rfl).1,
    (t2 goodLib 1 ⟨8, goodViews, 3, 2, none⟩ rfl).2.1,
    (t3 goodLib 3 2 false ⟨7, goodViews, 3, 2, some false⟩ rfl).2.2.2.2.2,
    t4 badLib 1 (Or.inl rfl),
    t5 badLib 1 (Or.inl rfl),
    t6 badLib 3 2 false (Or.inl rfl)⟩

/-- C5: `bufferResize` forwards buffer, width and height to the native
resize, and the views it returns afterwards are rebuilt together from the
resized buffer with lengths matching the new size. -/
theorem bufferResize_rebuilds_views (lib : NativeSymbols) (buffer : Ptr)
    (w h : Nat) (v : BufferViews) :
    (FFIRenderLib.bufferResize lib buffer w h).nativeBuffer = buffer ∧
    (FFIRenderLib.bufferResize lib buffer w h).nativeWidth = w ∧
    (FFIRenderLib.bufferResize lib buffer w h).nativeHeight = h ∧
    ((FFIRenderLib.bufferResize lib buffer w h).views = .ok v →
      v.char.length = w * h ∧ v.fg.length = 4 * (w * h) ∧
      v.bg.length = 4 * (w * h) ∧ v.attributes.length = w * h) :=
  ⟨rfl, rfl, rfl, fun hv => getBuffer_ok_lengths hv⟩

/-- Witness for C5 at `goodLib`, resizing buffer `7` to 3×2: the rebuilt
views have the new lengths. -/
theorem bufferResize_rebuilds_views_witness :
    goodViews.char.length = 3 * 2 ∧ goodViews.fg.length = 4 * (3 * 2) ∧
    goodViews.bg.length = 4 * (3 * 2) ∧ goodViews.attributes.length
      = 3 * 2 :=
  (bufferResize_rebuilds_views goodLib 7 3 2 goodViews).2.2.2 rfl

/-- C1: every omitted source argument of `drawFrameBuffer` is passed to the
native call as `0`, so an omitted or zero srcW/srcH selects the full source
buffer (per the spec-modelled native source-region selection), and target
pointer, destX, destY and source pointer are forwarded unchanged. -/
theorem drawFrameBuffer_defaults_and_forwards (tgt : Ptr) (dx dy : Int)
    (src : Ptr) (sx sy sw sh : Option Nat) :
    let call := FFIRenderLib.drawFrameBuffer tgt dx dy src sx sy sw sh
    call.targetBufferPtr = tgt ∧ call.destX = dx ∧ call.destY = dy ∧
    call.bufferPtr = src ∧
    (sx = none → call.srcX = 0) ∧ (sy = none → call.srcY = 0) ∧
    (sw = none → call.srcWidth = 0) ∧ (sh = none → call.srcHeight = 0) ∧
    ((sw = none ∨ sw = some 0) → ∀ source : CellBuffer,
      selectedSrcWidth source call.srcWidth = source.width) ∧
    ((sh = none ∨ sh = some 0) → ∀ source : CellBuffer,
      selectedSrcHeight source call.srcHeight = source.height) := by
  refine ⟨rfl, rfl, rfl, rfl, ?_, ?_, ?_, ?_, ?_, ?_⟩
  · rintro rfl; rfl
  · rintro rfl; rfl
  · rintro rfl; rfl
  · rintro rfl; rfl
  · rintro (rfl | rfl) source <;> rfl
  · rintro (rfl | rfl) source <;> rfl

/-- Witness for C1 at concrete inputs: all four source arguments omitted are
passed as `0`, and the selected source region is the full 5×7 buffer. -/
theorem drawFrameBuffer_defaults_and_forwards_witness :
    (FFIRenderLib.drawFrameBuffer 1 2 3 4 none none none none).srcX = 0 ∧
    (FFIRenderLib.drawFrameBuffer 1 2 3 4 none none none none).srcWidth = 0 ∧
    selectedSrcWidth ⟨5, 7, false, #[], #[], #[], #[]⟩
      (FFIRenderLib.drawFrameBuffer 1 2 3 4 none none none none).srcWidth
      = 5 ∧
    selectedSrcHeight ⟨5, 7, false, #[], #[], #[], #[]⟩
      (FFIRenderLib.drawFrameBuffer 1 2 3 4 none none none none).srcHeight
      = 7 := by
  obtain ⟨-, -, -, -, h1, -, h3, -, h5, h6⟩ :=
    drawFrameBuffer_defaults_and_forwards 1 2 3 4 none none none none
  exact ⟨h1 rfl, h3 rfl, h5 (Or.inl rfl) _, h6 (Or.inl rfl) _⟩

/-- C2: `bufferDrawSuperSampleBuffer` encodes the tag `bgra8unorm` as the
discriminant `0` and `rgba8unorm` as `1`, and forwards buffer pointer, x, y,
pixel-data pointer, pixel-data length and alignedBytesPerRow unchanged. -/
theorem bufferDrawSuperSampleBuffer_format_encoding (buffer : Ptr)
    (x y : Nat) (pixelDataPtr : Ptr) (pixelDataLength : Nat)
    (format : SuperSampleFormat) (alignedBytesPerRow : Nat) :
    let call := FFIRenderLib.bufferDrawSuperSampleBuffer buffer x y
      pixelDataPtr pixelDataLength format alignedBytesPerRow
    (format = .bgra8unorm → call.formatId = 0) ∧
    (format = .rgba8unorm → call.formatId = 1) ∧
    call.buffer = buffer ∧ call.x = x ∧ call.y = y ∧
    call.pixelDataPtr = pixelDataPtr ∧
    call.pixelDataLength = pixelDataLength ∧
    call.alignedBytesPerRow = alignedBytesPerRow := by
  refine ⟨?_, ?_, rfl, rfl, rfl, rfl, rfl, rfl⟩
  · rintro rfl; rfl
  · rintro rfl; rfl

/-- Witness for C2 at concrete inputs: both format tags, with the other six
arguments forwarded. -/
theorem bufferDrawSuperSampleBuffer_format_encoding_witness :
    (FFIRenderLib.bufferDrawSuperSampleBuffer 1 2 3 4 5
      .bgra8unorm 6).formatId = 0 ∧
    (FFIRenderLib.bufferDrawSuperSampleBuffer 1 2 3 4 5
      .rgba8unorm 6).formatId = 1 := by
  obtain ⟨h0, -⟩ :=
    bufferDrawSuperSampleBuffer_format_encoding 1 2 3 4 5 .bgra8unorm 6
  obtain ⟨-, h1, -⟩ :=
    bufferDrawSuperSampleBuffer_format_encoding 1 2 3 4 5 .rgba8unorm 6
  exact ⟨h0 rfl, h1 rfl⟩

/-- C6: `bufferDrawText` passes the UTF-8 encoding of the text together with
its exact encoded byte length, an omitted bgColor as the null pointer, an
omitted attributes as `0`, and the rest unchanged. -/
theorem bufferDrawText_encoding (buffer : Ptr) (text : String) (x y : Nat)
    (color : RGBA) (bgColor : Option RGBA) (attributes : Option Nat) :
    let call := FFIRenderLib.bufferDrawText buffer text x y color bgColor
      attributes
    call.textBytes = text.toUTF8.toList ∧
    call.textLength = call.textBytes.length ∧
    (bgColor = none → call.bg = none) ∧
    (∀ c : RGBA, bgColor = some c → call.bg = some c.buffer) ∧
    (attributes = none → call.attributes = 0) ∧
    (∀ a : Nat, attributes = some a → call.attributes = a) ∧
    call.buffer = buffer ∧ call.x = x ∧ call.y = y ∧
    call.fg = color.buffer := by
  refine ⟨rfl, rfl, ?_, ?_, ?_, ?_, rfl, rfl, rfl, rfl⟩
  · rintro rfl; rfl
  · rintro c rfl; rfl
  · rintro rfl; rfl
  · rintro a rfl; rfl

/-- Witness for C6 at concrete inputs: a two-codepoint text whose UTF-8
encoding is passed with its byte length, omitted bgColor as null, omitted
attributes as `0`. -/
theorem bufferDrawText_encoding_witness :
    (FFIRenderLib.bufferDrawText 1 "ab" 2 3 ⟨9⟩ none none).textLength =
      (FFIRenderLib.bufferDrawText 1 "ab" 2 3 ⟨9⟩ none none).textBytes.length
    ∧ (FFIRenderLib.bufferDrawText 1 "ab" 2 3 ⟨9⟩ none none).bg = none
    ∧ (FFIRenderLib.bufferDrawText 1 "ab" 2 3 ⟨9⟩ none none).attributes
      = 0 := by
  obtain ⟨-, h1, h2, -, h4, -⟩ :=
    bufferDrawText_encoding 1 "ab" 2 3 ⟨9⟩ none none
  exact ⟨h1, h2 rfl, h4 rfl⟩

/-- A fold whose step fixes the accumulator leaves it unchanged. -/
lemma foldl_const {α β : Type} (f : β → α → β) (b : β) (l : List α)
    (h : ∀ a ∈ l, f b a = b) : l.foldl f b = b := by
  induction l with
  | nil => rfl
  | cons a t ih =>
    rw [List.foldl_cons, h a (List.mem_cons_self a t)]
    exact ih fun a' ha' => h a' (List.mem_cons_of_mem a ha')

/-- An out-of-bounds `setCellWithAlphaBlending` leaves the buffer unchanged. -/
lemma setCellWithAlphaBlending_oob (buf : CellBuffer) (x y cp : Nat)
    (fg bg : ColorRGBA) (attrs : Nat)
    (h : buf.width ≤ x ∨ buf.height ≤ y) :
    buf.setCellWithAlphaBlending x y cp fg bg attrs = buf := by
  unfold CellBuffer.setCellWithAlphaBlending
  rw [if_neg (by omega)]

/-- An out-of-bounds `writeTextCell` leaves the buffer unchanged. -/
lemma writeTextCell_oob (buf : CellBuffer) (x y cp : Nat) (fg : ColorRGBA)
    (bg : Option ColorRGBA) (attrs : Nat)
    (h : buf.width ≤ x ∨ buf.height ≤ y) :
    buf.writeTextCell x y cp fg bg attrs = buf := by
  unfold CellBuffer.writeTextCell
  rw [if_neg (by omega)]

/-- `drawText` starting out of bounds (past the right edge or below the
bottom) leaves the buffer unchanged. -/
lemma drawText_oob (buf : CellBuffer) (text : List Nat) (y : Nat)
    (fg : ColorRGBA) (bg : Option ColorRGBA) (attrs : Nat) :
    ∀ x : Nat, buf.width ≤ x ∨ buf.height ≤ y →
      buf.drawText text x y fg bg attrs = buf := by
  induction text with
  | nil => intro x _; rfl
  | cons cp rest ih =>
    intro x h
    simp only [CellBuffer.drawText]
    rw [writeTextCell_oob _ _ _ _ _ _ _ h]
    exact ih (x + 1) (by omega)

/-- An out-of-bounds `fillCell` leaves the buffer unchanged. -/
lemma fillCell_oob (buf : CellBuffer) (x y : Nat) (c : ColorRGBA)
    (h : buf.width ≤ x ∨ buf.height ≤ y) :
    buf.fillCell x y c = buf := by
  unfold CellBuffer.fillCell
  rw [if_neg (by omega)]

/-- A `fillRect` whose origin is out of bounds leaves the buffer
unchanged. -/
lemma fillRect_oob (buf : CellBuffer) (x y w h : Nat) (c : ColorRGBA)
    (hob : buf.width ≤ x ∨ buf.height ≤ y) :
    buf.fillRect x y w h c = buf := by
  unfold CellBuffer.fillRect
  apply foldl_const
  intro dy _
  apply foldl_const
  intro dx _
  exact fillCell_oob buf (x + dx) (y + dy) c (by omega)

/-- C7: every per-cell write at a coordinate outside
`[0,width)×[0,height)` — `setCellWithAlphaBlending`, the per-cell writes of
`drawText`, and `fillRect`/its per-cell write — leaves the spec-modelled
buffer bit-identical (all operations are total, so none raises an error). -/
theorem oob_writes_are_noops (buf : CellBuffer) (x y cp : Nat)
    (fg bg : ColorRGBA) (bgo : Option ColorRGBA) (attrs : Nat)
    (text : List Nat) (w h : Nat)
    (hob : buf.width ≤ x ∨ buf.height ≤ y) :
    buf.setCellWithAlphaBlending x y cp fg bg attrs = buf ∧
    buf.writeTextCell x y cp fg bgo attrs = buf ∧
    buf.drawText text x y fg bgo attrs = buf ∧
    buf.fillCell x y bg = buf ∧
    buf.fillRect x y w h bg = buf :=
  ⟨setCellWithAlphaBlending_oob buf x y cp fg bg attrs hob,
   writeTextCell_oob buf x y cp fg bgo attrs hob,
   drawText_oob buf text y fg bgo attrs x hob,
   fillCell_oob buf x y bg hob,
   fillRect_oob buf x y w h bg hob⟩

/-- Witness for C7 at the concrete 2×2 buffer `smallBuf` and the
out-of-bounds coordinate (5,0). -/
theorem oob_writes_are_noops_witness :
    smallBuf.setCellWithAlphaBlending 5 0 77 white white 1 = smallBuf ∧
    smallBuf.drawText [72, 73] 5 0 white none 0 = smallBuf ∧
    smallBuf.fillRect 5 0 3 3 white = smallBuf := by
  obtain ⟨h1, -, h3, -, h5⟩ :=
    oob_writes_are_noops smallBuf 5 0 77 white white none 1 [72, 73] 3 3
      (Or.inl (by decide))
  exact ⟨h1, h3, h5⟩

/-- C8: in the spec-modelled HitGrid, `addToHitGrid(0,0,10,10,1)` then
`addToHitGrid(5,5,10,10,2)` gives `checkHit(7,7) = 2` (last write wins) and
`checkHit(1,1) = 1`, and after `clearHitGrid` every `checkHit` returns the
empty sentinel `0` regardless of prior registrations. -/
theorem hitGrid_last_write_wins_and_clear :
    HitGrid.checkHit
      ((HitGrid.empty.addToHitGrid 0 0 10 10 1).addToHitGrid 5 5 10 10 2)
      7 7 = 2 ∧
    HitGrid.checkHit
      ((HitGrid.empty.addToHitGrid 0 0 10 10 1).addToHitGrid 5 5 10 10 2)
      1 1 = 1 ∧
    (∀ (g : HitGrid) (x y : Nat), HitGrid.checkHit g.clearHitGrid x y = 0) :=
  ⟨by decide, by decide, fun g x y => rfl⟩

/-- C10: `resolveRenderLib` is memoized — the first call constructs the
instance from the currently stored path (the one most recently set via
`setRenderLibPath`, or the default `none`), and later calls return the same
instance even if `setRenderLibPath` is called in between. -/
theorem resolveRenderLib_memoized (s : RenderLibState) (p : String) :
    (s.opentuiLib = none →
      (resolveRenderLib s).1 = ⟨s.opentuiLibPath⟩) ∧
    (s.opentuiLib = none →
      (resolveRenderLib (setRenderLibPath p s)).1 = ⟨some p⟩) ∧
    (resolveRenderLib (resolveRenderLib s).2).1 = (resolveRenderLib s).1 ∧
    (resolveRenderLib (setRenderLibPath p (resolveRenderLib s).2)).1 =
      (resolveRenderLib s).1 := by
  refine ⟨?_, ?_, ?_, ?_⟩
  · intro h; simp [resolveRenderLib, h]
  · intro h; simp [resolveRenderLib, setRenderLibPath, h]
  · cases hs : s.opentuiLib with
    | none => simp [resolveRenderLib, hs]
    | some lib => simp [resolveRenderLib, hs]
  · cases hs : s.opentuiLib with
    | none => simp [resolveRenderLib, setRenderLibPath, hs]
    | some lib => simp [resolveRenderLib, setRenderLibPath, hs]

/-- Witness for C10 on the fresh module state (no path set, no memoized
instance), setting the path "x" after the first resolution. -/
theorem resolveRenderLib_memoized_witness :
    (resolveRenderLib ⟨none, none⟩).1 = ⟨none⟩ ∧
    (resolveRenderLib (resolveRenderLib ⟨none, none⟩).2).1 =
      (resolveRenderLib ⟨none, none⟩).1 ∧
    (resolveRenderLib
        (setRenderLibPath "x" (resolveRenderLib ⟨none, none⟩).2)).1 =
      (resolveRenderLib ⟨none, none⟩).1 := by
  obtain ⟨h1, -, h3, h4⟩ := resolveRenderLib_memoized ⟨none, none⟩ "x"
  exact ⟨h1 rfl, h3, h4⟩

/-- C9: `bufferSetCellWithAlphaBlending` passes the first Unicode code point
of a non-empty `char` string (code points beyond the first are ignored), and
the space codepoint 32 for the empty string. -/
theorem bufferSetCellWithAlphaBlending_codepoint (buffer : Ptr) (x y : Nat)
    (c : Char) (rest : List Char) (color bgColor : RGBA)
    (attributes : Option Nat) :
    (FFIRenderLib.bufferSetCellWithAlphaBlending buffer x y
      (String.mk (c :: rest)) color bgColor attributes).charPtr = c.toNat ∧
    (FFIRenderLib.bufferSetCellWithAlphaBlending buffer x y
      (String.mk []) color bgColor attributes).charPtr = 32 :=
  ⟨rfl, rfl⟩

end OpenTUI
